import Mathlib

/-!
Verification of the LatentSync `UNetDataset` data-loading core
(`latentsync/data/unet_dataset.py`) against its natural-language
specification.

The Python data pipeline is shallowly embedded in Lean:

* Python integers are `ℤ` (or `ℕ` where the source guarantees
  non-negativity); Python floor division `//` on non-negative operands and
  `random.randint` bounds are modelled with `ℤ` division (which is floor
  division for the non-negative ranges that occur here).
* Randomness is modelled by passing the stream of values that
  `random.randint` returns as an explicit argument; the `randint` range
  guarantee becomes a hypothesis on those values.
* Unbounded `while` loops consume a finite list of draws and return
  `Option`/a `stuck` marker when the list is exhausted, which models
  non-termination.
* External collaborators (video decoder, image processor, spectrogram
  extractor) are opaque parameters, per the spec's §6 interface contracts.
* The filesystem holding the mel-spectrogram cache is a map from path to
  an optional blob; a blob either loads back to a matrix or is corrupt.
-/

namespace LatentSync

/-! ## Python string primitives

Core `String` operations are re-implemented structurally over `List Char`
so that they follow Python's semantics (`str.rstrip`, `str.replace`,
`str.endswith`, `os.path.basename`, `os.path.join`) and evaluate inside
the kernel. -/

/-- The characters stripped by Python's `str.rstrip()` with no argument. -/
def pyWhitespace (c : Char) : Bool :=
  c = ' ' || c = '\t' || c = '\n' || c = '\r' || c = '\x0b' || c = '\x0c'

/-- Python `str.rstrip()`: drop trailing whitespace characters. -/
def pyRstrip (s : String) : String :=
  ⟨(s.data.reverse.dropWhile pyWhitespace).reverse⟩

/-- Does `l` begin with the pattern `pat`? -/
def listStartsWith : List Char → List Char → Bool
  | [], _ => true
  | _ :: _, [] => false
  | p :: ps, c :: cs => p = c && listStartsWith ps cs

/-- Python `str.endswith(suf)` via reversed character lists. -/
def pyEndsWith (s suf : String) : Bool :=
  listStartsWith suf.data.reverse s.data.reverse

/-- Worker for `pyReplace`: scans the character list left to right,
replacing each non-overlapping occurrence of `pat`; the `Nat` argument
counts characters still to be skipped after an emitted replacement. -/
def replaceGo (pat rep : List Char) : List Char → Nat → List Char
  | [], _ => []
  | _ :: rest, k + 1 => replaceGo pat rep rest k
  | c :: rest, 0 =>
    if listStartsWith pat (c :: rest) then
      rep ++ replaceGo pat rep rest (pat.length - 1)
    else
      c :: replaceGo pat rep rest 0

/-- Python `str.replace(pat, rep)` for a non-empty pattern: replace every
non-overlapping occurrence, left to right. -/
def pyReplace (s pat rep : String) : String :=
  ⟨replaceGo pat.data rep.data s.data 0⟩

/-- Python `os.path.basename`: the part of the path after the last `/`. -/
def pyBasename (s : String) : String :=
  ⟨(s.data.reverse.takeWhile (fun c => !(c = '/'))).reverse⟩

/-- Python `os.path.join a b` for a relative or absolute second component. -/
def osPathJoin (a b : String) : String :=
  if b.data.head? = some '/' then b
  else if a = "" then b
  else if a.data.getLast? = some '/' then a ++ b
  else a ++ "/" ++ b

/-! ## Index Builder (`UNetDataset.__init__`, lines 27–47)

`resolveVideoPaths` embeds the path-resolution branch; the manifest file's
contents and the directory listing are passed explicitly (file I/O is
external). `melWindowLengthOf` embeds the `num_frames` dispatch. -/

/-- Path resolution of `UNetDataset.__init__`: manifest lines rstripped if
`train_fileslist` is non-empty, else the `.mp4`-filtered directory listing
joined onto the directory, else a `ValueError`. -/
def resolveVideoPaths (train_data_dir train_fileslist : String)
    (fileslistLines dirListing : List String) : Except String (List String) :=
  if train_fileslist ≠ "" then
    .ok (fileslistLines.map pyRstrip)
  else if train_data_dir ≠ "" then
    .ok ((dirListing.filter (fun f => pyEndsWith f ".mp4")).map
      (fun f => osPathJoin train_data_dir f))
  else
    .error "data_dir and fileslist cannot be both empty"

/-- The `num_frames → mel_window_length` dispatch of `__init__`:
16 ↦ 52, 5 ↦ 16, anything else raises `NotImplementedError`. -/
def melWindowLengthOf (num_frames : ℤ) : Except String ℕ :=
  if num_frames = 16 then .ok 52
  else if num_frames = 5 then .ok 16
  else .error "Only support 16 and 5 frames now"

/-- The configuration-derived state of a constructed `UNetDataset` that the
sampling pipeline reads. -/
structure UNetDatasetModel where
  video_paths : List String
  num_frames : ℤ
  mel_window_length : ℕ
  deriving DecidableEq

/-- Constructor `UNetDataset.__init__`: resolve the video paths, then the mel window
length; either failure aborts construction. -/
def initDataset (train_data_dir train_fileslist : String)
    (fileslistLines dirListing : List String) (num_frames : ℤ) :
    Except String UNetDatasetModel :=
  match resolveVideoPaths train_data_dir train_fileslist fileslistLines dirListing with
  | .error e => .error e
  | .ok paths =>
    match melWindowLengthOf num_frames with
    | .error e => .error e
    | .ok mwl => .ok ⟨paths, num_frames, mwl⟩

/-- Length `UNetDataset.__len__`: the number of resolved video paths. -/
def datasetLen (d : UNetDatasetModel) : ℕ :=
  d.video_paths.length

/-! ## Window Sampler (`UNetDataset.get_frames`, lines 85–101) -/

/-- NumPy `np.arange start (start + n)`: the contiguous run of `n` integers
beginning at `start` (empty when `n ≤ 0`). -/
def npArange (start n : ℤ) : List ℤ :=
  (List.range n.toNat).map (fun i : ℕ => start + (i : ℤ))

/-- The rejection test of the negative-window loop, exactly as written in
the source: resample whenever
`wrong_start_idx > start_idx - num_frames and wrong_start_idx < start_idx + num_frames`. -/
def negReject (num_frames start_idx wrong_start_idx : ℤ) : Bool :=
  decide (wrong_start_idx > start_idx - num_frames) &&
    decide (wrong_start_idx < start_idx + num_frames)

/-- The sampler `UNetDataset.get_frames`, with the `random.randint` draws made
explicit: `posDraw` is the draw for `start_idx`, `negDraws` the stream of
draws for `wrong_start_idx`. The rejection loop takes the first draw that
passes; if no draw in the stream passes the loop never exits, modelled by
`none`. Returns `(frames_index, wrong_frames_index, start_idx)`. -/
def get_frames (num_frames total_num_frames posDraw : ℤ) (negDraws : List ℤ) :
    Option (List ℤ × List ℤ × ℤ) :=
  let start_idx := posDraw
  let frames_index := npArange start_idx num_frames
  match negDraws.find? (fun w => !negReject num_frames start_idx w) with
  | some wrong_start_idx =>
    some (frames_index, npArange wrong_start_idx num_frames, start_idx)
  | none => none

/-- Membership in `npArange start n` bounds the element. -/
theorem mem_npArange {x start n : ℤ} (hx : x ∈ npArange start n) :
    start ≤ x ∧ x < start + n := by
  rcases List.mem_map.mp hx with ⟨i, hi, rfl⟩
  rw [List.mem_range] at hi
  omega

/-- Windows `npArange start n` have `n.toNat` elements. -/
theorem length_npArange (start n : ℤ) : (npArange start n).length = n.toNat := by
  rw [npArange, List.length_map, List.length_range]

/-- Element `i` of `npArange start n` is `start + i`. -/
theorem getElem?_npArange (start n : ℤ) (i : ℕ) (hi : i < n.toNat) :
    (npArange start n)[i]? = some (start + i) := by
  rw [npArange, List.getElem?_map, List.getElem?_range hi]
  rfl

/-- The rejection test fails (the draw is accepted) exactly when the
negative start is at least one window length away from the positive
start. -/
theorem negReject_eq_false_iff (N s w : ℤ) :
    negReject N s w = false ↔ (w ≤ s - N ∨ s + N ≤ w) := by
  rw [negReject, Bool.and_eq_false_iff]
  simp only [decide_eq_false_iff_not, not_lt, gt_iff_lt]

/-- If some element at the end of the stream satisfies the test, `find?`
succeeds. -/
theorem find?_append_accept {p : ℤ → Bool} {w : ℤ} (hw : p w = true) (ds : List ℤ) :
    ((ds ++ [w]).find? p).isSome := by
  induction ds with
  | nil => simp [List.find?, hw]
  | cons d rest ih =>
    cases hpd : p d
    · simpa [List.find?_cons, hpd] using ih
    · simp [List.find?_cons, hpd]

/-- Destructuring a successful `get_frames` run: the accepted negative draw
is the first stream element passing the rejection test, and the outputs are
the two `np.arange` windows and the positive start. -/
theorem get_frames_eq_some {N T p : ℤ} {ds : List ℤ} {fi wi : List ℤ} {s : ℤ}
    (h : get_frames N T p ds = some (fi, wi, s)) :
    ∃ w, ds.find? (fun v => !negReject N p v) = some w ∧
      fi = npArange p N ∧ wi = npArange w N ∧ s = p := by
  rw [get_frames] at h
  cases hfind : ds.find? (fun v => !negReject N p v) with
  | none => rw [hfind] at h; cases h
  | some w =>
    rw [hfind] at h
    simp only [Option.some.injEq, Prod.mk.injEq] at h
    exact ⟨w, rfl, h.1.symm, h.2.1.symm, h.2.2.symm⟩

/-- Claim C1: for every accepted positive/negative pair produced by
`get_frames`, the negative start satisfies `s⁻ ≤ s⁺ - N ∨ s⁺ + N ≤ s⁻`,
and the two windows are disjoint index sets. -/
theorem c1_negative_window_separated (N T p : ℤ) (ds : List ℤ)
    (fi wi : List ℤ) (s : ℤ)
    (h : get_frames N T p ds = some (fi, wi, s)) :
    ∃ w, wi = npArange w N ∧ (w ≤ s - N ∨ s + N ≤ w) ∧
      ∀ x ∈ fi, x ∉ wi := by
  obtain ⟨w, hfind, hfi, hwi, hs⟩ := get_frames_eq_some h
  have hacc := List.find?_some hfind
  have hacc' : negReject N p w = false := by simpa using hacc
  have hw := (negReject_eq_false_iff N p w).mp hacc'
  subst hfi hwi hs
  refine ⟨w, rfl, hw, ?_⟩
  intro x hxf hxw
  have h1 := mem_npArange hxf
  have h2 := mem_npArange hxw
  omega

/-- Witness for C1 at `N = 5`, `T = 60`, positive draw 10, negative draws
`[12, 0]` (12 is rejected, 0 accepted). -/
theorem c1_witness :
    get_frames 5 60 10 [12, 0] = some (npArange 10 5, npArange 0 5, 10) ∧
    (∃ w, npArange (0:ℤ) 5 = npArange w 5 ∧ (w ≤ 10 - 5 ∨ 10 + 5 ≤ w) ∧
      ∀ x ∈ npArange (10:ℤ) 5, x ∉ npArange (0:ℤ) 5) :=
  ⟨by decide, c1_negative_window_separated 5 60 10 [12, 0] _ _ _ (by decide)⟩

/-- Claim C2: under the caller's precondition `T ≥ 3N` and the `randint`
range guarantee on the positive draw, the positive start lies in
`[N/2, T - N - N/2]`, both windows are contiguous runs of length `N`, and
the positive window lies inside `[0, T)`. -/
theorem c2_positive_window_bounds (N T p : ℤ) (ds : List ℤ)
    (fi wi : List ℤ) (s : ℤ)
    (hN : 1 ≤ N) (hT : 3 * N ≤ T)
    (hlo : N / 2 ≤ p) (hhi : p ≤ T - N - N / 2)
    (h : get_frames N T p ds = some (fi, wi, s)) :
    (N / 2 ≤ s ∧ s ≤ T - N - N / 2) ∧
    fi = npArange s N ∧ (fi.length : ℤ) = N ∧
    (∃ w, wi = npArange w N ∧ (wi.length : ℤ) = N) ∧
    (∀ x ∈ fi, 0 ≤ x ∧ x < T) := by
  obtain ⟨w, hfind, hfi, hwi, hs⟩ := get_frames_eq_some h
  subst hfi hwi hs
  refine ⟨⟨hlo, hhi⟩, rfl, ?_, ⟨w, rfl, ?_⟩, ?_⟩
  · rw [length_npArange]; omega
  · rw [length_npArange]; omega
  · intro x hx
    have := mem_npArange hx
    omega

/-- Witness for C2 at `N = 5`, `T = 60`, positive draw 10. -/
theorem c2_witness :
    ((1:ℤ) ≤ 5 ∧ 3 * (5:ℤ) ≤ 60 ∧ (5:ℤ) / 2 ≤ 10 ∧ (10:ℤ) ≤ 60 - 5 - 5 / 2) ∧
    (((5:ℤ) / 2 ≤ 10 ∧ (10:ℤ) ≤ 60 - 5 - 5 / 2) ∧
      npArange (10:ℤ) 5 = npArange (10:ℤ) 5 ∧ ((npArange (10:ℤ) 5).length : ℤ) = 5 ∧
      (∃ w, npArange (0:ℤ) 5 = npArange w 5 ∧ ((npArange (0:ℤ) 5).length : ℤ) = 5) ∧
      (∀ x ∈ npArange (10:ℤ) 5, 0 ≤ x ∧ x < 60)) :=
  ⟨by decide,
   c2_positive_window_bounds 5 60 10 [12, 0] _ _ _
     (by decide) (by decide) (by decide) (by decide) (by decide)⟩

/-- Claim C10: for `T ≥ 3N` and any positive start in the sampled range,
the acceptance set of the negative rejection loop is non-empty — a draw of
`0` is accepted when `s⁺ ≥ N`, a draw of `T - N` otherwise — so any draw
stream reaching an accepted value makes `get_frames` terminate. -/
theorem c10_rejection_loop_has_accepting_draw (N T s : ℤ)
    (hN : 1 ≤ N) (hT : 3 * N ≤ T)
    (hlo : N / 2 ≤ s) (hhi : s ≤ T - N - N / 2) :
    (∃ w, 0 ≤ w ∧ w ≤ T - N ∧ negReject N s w = false ∧
      ∀ ds : List ℤ, (get_frames N T s (ds ++ [w])).isSome = true) ∧
    (N ≤ s → negReject N s 0 = false) ∧
    (s < N → negReject N s (T - N) = false) := by
  have hsome : ∀ w : ℤ, negReject N s w = false →
      ∀ ds : List ℤ, (get_frames N T s (ds ++ [w])).isSome = true := by
    intro w hw ds
    have hfound := @find?_append_accept (fun v => !negReject N s v) w (by simp [hw]) ds
    rw [get_frames]
    cases hfind : (ds ++ [w]).find? (fun v => !negReject N s v) with
    | none => rw [hfind] at hfound; simp at hfound
    | some v => rfl
  have h0 : N ≤ s → negReject N s 0 = false := fun hns =>
    (negReject_eq_false_iff N s 0).mpr (by omega)
  have hTN : s < N → negReject N s (T - N) = false := fun hsn =>
    (negReject_eq_false_iff N s (T - N)).mpr (by omega)
  refine ⟨?_, h0, hTN⟩
  rcases le_or_lt N s with hcase | hcase
  · exact ⟨0, le_refl 0, by omega, h0 hcase, hsome 0 (h0 hcase)⟩
  · exact ⟨T - N, by omega, le_refl _, hTN hcase, hsome _ (hTN hcase)⟩

/-- Witness for C10 at `N = 5`, `T = 60`, positive start 10. -/
theorem c10_witness :
    ((1:ℤ) ≤ 5 ∧ 3 * (5:ℤ) ≤ 60 ∧ (5:ℤ) / 2 ≤ 10 ∧ (10:ℤ) ≤ 60 - 5 - 5 / 2) ∧
    ((∃ w, 0 ≤ w ∧ w ≤ 60 - 5 ∧ negReject 5 10 w = false ∧
      ∀ ds : List ℤ, (get_frames 5 60 10 (ds ++ [w])).isSome = true) ∧
    ((5:ℤ) ≤ 10 → negReject 5 10 0 = false) ∧
    ((10:ℤ) < 5 → negReject 5 10 (60 - 5) = false)) :=
  ⟨by decide,
   c10_rejection_loop_has_accepting_draw 5 60 10
     (by decide) (by decide) (by decide) (by decide)⟩

/-! ## Audio-Visual Aligner (`UNetDataset.crop_audio_window`, lines 80–83)

A spectrogram is a matrix (list of rows, one per frequency bin); the
entries are opaque integer stand-ins for the float values, which the core
never computes with — it only slices and stores them. -/

/-- A 2D time-frequency matrix: rows × columns. -/
abbrev Mel := List (List ℤ)

/-- Line 81, `int(80.0 * (start_index / float(video_fps)))`, for a non-negative
start index, modelled with exact arithmetic: the floor of `80·s / fps`,
i.e. natural-number division. -/
def melStartCol (video_fps start_index : ℕ) : ℕ :=
  (80 * start_index) / video_fps

/-- The Python slice `row[start : start + len]`. -/
def sliceRow (start len : ℕ) (row : List ℤ) : List ℤ :=
  (row.drop start).take len

/-- The aligner `UNetDataset.crop_audio_window`: slice every row to columns
`[start_idx, start_idx + mel_window_length)` (truncated if the matrix is
shorter) and add a leading singleton axis (`unsqueeze(0)`). -/
def crop_audio_window (video_fps mel_window_length : ℕ) (original_mel : Mel)
    (start_index : ℕ) : List Mel :=
  let start_idx := melStartCol video_fps start_index
  [original_mel.map (sliceRow start_idx mel_window_length)]

/-- Shape accessor `tensor.shape[-1]` of a cropped window `[1, rows, cols]`: the column
count, read off the first row of the first matrix. -/
def melWindowCols (w : List Mel) : ℕ :=
  w.headI.headI.length

/-! ## Spectrogram Cache (`UNetDataset.__getitem__`, lines 129–146)

The cache directory is a filesystem mapping paths to blobs; a blob either
loads back into a matrix (`torch.load` succeeds) or is corrupt
(`torch.load` raises). -/

/-- A file persisted by `torch.save`: either a well-formed serialized
matrix or a corrupt/partial write. -/
inductive Blob where
  | saved (m : Mel)
  | corrupt
  deriving DecidableEq

/-- The filesystem visible to the cache: path ↦ file contents. -/
abbrev FS := String → Option Blob

/-- Deserialization `torch.load` on a cache blob: `none` models the load raising. -/
def torchLoad : Blob → Option Mel
  | .saved m => some m
  | .corrupt => none

/-- Write (`some v`) or delete (`none`) the file at `k`. -/
def fsUpdate (fs : FS) (k : String) (v : Option Blob) : FS :=
  fun p => if p = k then v else fs p

/-- Line 130–132: the cache key is
`os.path.join(audio_mel_cache_dir, os.path.basename(video_path).replace(".mp4", "_mel.pt"))`. -/
def melCachePath (audio_mel_cache_dir video_path : String) : String :=
  osPathJoin audio_mel_cache_dir (pyReplace (pyBasename video_path) ".mp4" "_mel.pt")

/-- Lines 134–144: if the cache file exists, try `torch.load`; on load
failure delete it, recompute from source audio and persist; if it does not
exist, compute and persist. `computed` is the result of
`self.read_audio(video_path)` (`none` models the audio reader raising,
which happens after the deletion in the corrupt branch). Returns the
matrix used downstream (`none` = an exception escaped to the outer retry
loop) and the updated filesystem. -/
def getOrComputeMel (fs : FS) (mel_cache_path : String) (computed : Option Mel) :
    Option Mel × FS :=
  match fs mel_cache_path with
  | some blob =>
    match torchLoad blob with
    | some original_mel => (some original_mel, fs)
    | none =>
      match computed with
      | none => (none, fsUpdate fs mel_cache_path none)
      | some m =>
        (some m, fsUpdate (fsUpdate fs mel_cache_path none) mel_cache_path (some (.saved m)))
  | none =>
    match computed with
    | none => (none, fs)
    | some m => (some m, fsUpdate fs mel_cache_path (some (.saved m)))

/-! ## Sample Assembler (`UNetDataset.__getitem__`, lines 113–179)

External collaborators are opaque fields of `DatasetState`:
`frameCount` is `len(VideoReader(path))` with `none` modelling a decoder
exception; `readAudio` is `self.read_audio` with `none` modelling an audio
exception; `procOk` tells whether the per-worker image processor raises on
this path (e.g. face not detected); `procFrame`/`maskedFrame`/`maskFrame`/
`procImage` are the per-frame outputs of
`prepare_masks_and_masked_images` and `process_images`. -/

/-- The `mel` field of a returned record: the Python empty list when audio
loading is disabled, otherwise a cropped window. -/
inductive MelOut where
  | empty
  | win (w : List Mel)
  deriving DecidableEq

/-- The Sample Record returned to the training loop (the `dict` of lines
169–177). -/
structure Sample where
  gt : List ℤ
  masked_gt : List ℤ
  ref : List ℤ
  mel : MelOut
  mask : List ℤ
  video_path : String
  start_idx : ℤ
  deriving DecidableEq

/-- The constructed dataset state read by `__getitem__`, with the external
collaborators as opaque functions. -/
structure DatasetState where
  video_paths : List String
  num_frames : ℤ
  mel_window_length : ℕ
  video_fps : ℕ
  load_audio_data : Bool
  audio_mel_cache_dir : String
  mask : String
  frameCount : String → Option ℤ
  readAudio : String → Option Mel
  procOk : String → Bool
  procFrame : ℤ → ℤ
  maskedFrame : ℤ → ℤ
  maskFrame : ℤ → ℤ
  procImage : ℤ → ℤ

/-- The `random.randint` draws consumed by one iteration of the retry
loop: the index draw of line 117, then the positive and negative window
draws of `get_frames`. -/
structure AttemptRand where
  idxDraw : ℕ
  posDraw : ℤ
  negDraws : List ℤ
  deriving DecidableEq

/-- Outcome of one iteration of the `while True` body: success (`break`),
a `continue`, a raised-and-caught exception, or the inner rejection loop
spinning forever. -/
inductive AttemptRes where
  | ok (s : Sample) (fs : FS)
  | retrySkip (fs : FS)
  | retryExn (fs : FS)
  | stuck

/-- Modelled from the spec: the image-processing stage
(`prepare_masks_and_masked_images` / `process_images`, defined in
`latentsync/utils/image_processor.py`, which is outside the provided
sources). Per §6 of the spec it maps a frame batch to same-shape
ground-truth/masked/mask batches (or a plain processed batch), so it is
modelled frame-wise; a processor exception (e.g. face not detected) is the
`procOk = false` case. Mirrors lines 153–160: the reference frames go
through `prepare_masks_and_masked_images` when `mask == "fix_mask"`, else
through `process_images`. -/
def processStage (st : DatasetState) (video_path : String)
    (frames_index wrong_frames_index : List ℤ) (start_idx : ℤ)
    (mel : MelOut) (fs : FS) : AttemptRes :=
  if st.procOk video_path then
    let gt := frames_index.map st.procFrame
    let masked_gt := frames_index.map st.maskedFrame
    let mask := frames_index.map st.maskFrame
    let ref :=
      if st.mask = "fix_mask" then wrong_frames_index.map st.procFrame
      else wrong_frames_index.map st.procImage
    .ok ⟨gt, masked_gt, ref, mel, mask, video_path, start_idx⟩ fs
  else .retryExn fs

/-- One iteration of the `while True` body of `__getitem__`
(lines 116–167), consuming one bundle of random draws. -/
def attemptBody (st : DatasetState) (fs : FS) (r : AttemptRand) : AttemptRes :=
  match st.video_paths[r.idxDraw]? with
  | none => .retryExn fs
  | some video_path =>
    match st.frameCount video_path with
    | none => .retryExn fs
    | some total_num_frames =>
      if total_num_frames < 3 * st.num_frames then .retrySkip fs
      else
        match get_frames st.num_frames total_num_frames r.posDraw r.negDraws with
        | none => .stuck
        | some (frames_index, wrong_frames_index, start_idx) =>
          if st.load_audio_data then
            let mel_cache_path := melCachePath st.audio_mel_cache_dir video_path
            match getOrComputeMel fs mel_cache_path (st.readAudio video_path) with
            | (none, fs') => .retryExn fs'
            | (some original_mel, fs') =>
              let mel := crop_audio_window st.video_fps st.mel_window_length
                original_mel start_idx.toNat
              if melWindowCols mel ≠ st.mel_window_length then .retrySkip fs'
              else processStage st video_path frames_index wrong_frames_index start_idx
                (.win mel) fs'
          else
            processStage st video_path frames_index wrong_frames_index start_idx .empty fs

/-- The retry loop of `__getitem__`: run attempts until one succeeds.
`none` models the loop running forever (draw stream exhausted). -/
def getitemLoop (st : DatasetState) : FS → List AttemptRand → Option Sample
  | _, [] => none
  | fs, r :: rest =>
    match attemptBody st fs r with
    | .ok s _ => some s
    | .retrySkip fs' => getitemLoop st fs' rest
    | .retryExn fs' => getitemLoop st fs' rest
    | .stuck => none

/-- Item access `UNetDataset.__getitem__`: the requested index `idx` is bound but
immediately overwritten by a fresh random draw on line 117, so the loop
never reads it. -/
def getitem (st : DatasetState) (fs : FS) (idx : ℕ) (draws : List AttemptRand) :
    Option Sample :=
  getitemLoop st fs draws

/-- The sequence of dataset indices the retry loop actually attempts, in
order, up to and including the final (successful or stuck) attempt. -/
def attemptedIndices (st : DatasetState) : FS → List AttemptRand → List ℕ
  | _, [] => []
  | fs, r :: rest =>
    match attemptBody st fs r with
    | .ok _ _ => [r.idxDraw]
    | .retrySkip fs' => r.idxDraw :: attemptedIndices st fs' rest
    | .retryExn fs' => r.idxDraw :: attemptedIndices st fs' rest
    | .stuck => [r.idxDraw]

/-! ## Claims about the aligner and the constructor -/

/-- Claim C5: `crop_audio_window` computes `start_col = ⌊80·s / fps⌋`
(in particular 0 for `s = 0, fps = 25` and 80 for `s = 25, fps = 25`),
slices every spectrogram row to `[start_col, start_col + mel_window_length)`
with truncation when the row is shorter, and wraps the result in a leading
singleton axis. -/
theorem c5_crop_audio_window (video_fps mel_window_length : ℕ) (original_mel : Mel)
    (start_index : ℕ) (hfps : 0 < video_fps) :
    melStartCol video_fps start_index =
      ⌊(80 * start_index : ℚ) / (video_fps : ℚ)⌋₊ ∧
    melStartCol 25 0 = 0 ∧ melStartCol 25 25 = 80 ∧
    crop_audio_window video_fps mel_window_length original_mel start_index =
      [original_mel.map (sliceRow (melStartCol video_fps start_index) mel_window_length)] ∧
    (∀ row : List ℤ,
      (sliceRow (melStartCol video_fps start_index) mel_window_length row).length =
        min mel_window_length (row.length - melStartCol video_fps start_index)) ∧
    (∀ (row : List ℤ) (i : ℕ), i < mel_window_length →
      (sliceRow (melStartCol video_fps start_index) mel_window_length row)[i]? =
        row[melStartCol video_fps start_index + i]?) := by
  refine ⟨?_, rfl, rfl, rfl, ?_, ?_⟩
  · rw [melStartCol]
    rw [show ((80 * start_index : ℚ)) = ((80 * start_index : ℕ) : ℚ) by push_cast; ring]
    exact (Nat.floor_div_eq_div (80 * start_index) video_fps).symm
  · intro row
    rw [sliceRow, List.length_take, List.length_drop]
  · intro row i hi
    rw [sliceRow, List.getElem?_take_of_lt hi, List.getElem?_drop]

/-- Witness for C5 at `fps = 25`, `s = 25`, a 1×3 spectrogram, window
length 2. -/
theorem c5_witness :
    0 < 25 ∧
    (melStartCol 25 25 = ⌊(80 * 25 : ℚ) / (25 : ℚ)⌋₊ ∧
      melStartCol 25 0 = 0 ∧ melStartCol 25 25 = 80 ∧
      crop_audio_window 25 2 [[7, 8, 9]] 25 =
        [[[7, 8, 9]].map (sliceRow (melStartCol 25 25) 2)] ∧
      (∀ row : List ℤ, (sliceRow (melStartCol 25 25) 2 row).length =
        min 2 (row.length - melStartCol 25 25)) ∧
      (∀ (row : List ℤ) (i : ℕ), i < 2 →
        (sliceRow (melStartCol 25 25) 2 row)[i]? = row[melStartCol 25 25 + i]?)) :=
  ⟨by decide, c5_crop_audio_window 25 2 [[7, 8, 9]] 25 (by decide)⟩

/-- Claim C6: construction sets `mel_window_length` to 52 for
`num_frames = 16` and to 16 for `num_frames = 5`; every other value of
`num_frames` fails construction with the `NotImplementedError`, so a
dataset is only ever produced with `num_frames ∈ {16, 5}`. -/
theorem c6_mel_window_length_config (dir fl : String)
    (fileslistLines dirListing : List String) (n : ℤ) :
    melWindowLengthOf 16 = .ok 52 ∧
    melWindowLengthOf 5 = .ok 16 ∧
    (n ≠ 16 → n ≠ 5 → melWindowLengthOf n = .error "Only support 16 and 5 frames now") ∧
    (∀ d, initDataset dir fl fileslistLines dirListing n = .ok d →
      (n = 16 ∧ d.mel_window_length = 52) ∨ (n = 5 ∧ d.mel_window_length = 16)) := by
  refine ⟨rfl, rfl, ?_, ?_⟩
  · intro h16 h5
    rw [melWindowLengthOf, if_neg h16, if_neg h5]
  · intro d hd
    rw [initDataset] at hd
    cases hres : resolveVideoPaths dir fl fileslistLines dirListing with
    | error e => rw [hres] at hd; cases hd
    | ok paths =>
      rw [hres] at hd
      by_cases h16 : n = 16
      · subst h16
        simp only [melWindowLengthOf, if_pos rfl] at hd
        cases hd
        exact Or.inl ⟨rfl, rfl⟩
      · by_cases h5 : n = 5
        · subst h5
          rw [melWindowLengthOf, if_neg (show (5:ℤ) ≠ 16 by decide), if_pos rfl] at hd
          cases hd
          exact Or.inr ⟨rfl, rfl⟩
        · rw [melWindowLengthOf, if_neg h16, if_neg h5] at hd
          cases hd

/-- Witness for C6: `num_frames = 7` is rejected, and a constructed
dataset with `num_frames = 5` has window length 16. -/
theorem c6_witness :
    melWindowLengthOf 16 = .ok 52 ∧
    melWindowLengthOf 5 = .ok 16 ∧
    melWindowLengthOf 7 = .error "Only support 16 and 5 frames now" ∧
    ((7:ℤ) = 16 ∧ (52:ℕ) = 52 ∨ (7:ℤ) = 5 ∧ (52:ℕ) = 16 → False) :=
  ⟨(c6_mel_window_length_config "" "m.txt" [] [] 7).1,
   (c6_mel_window_length_config "" "m.txt" [] [] 7).2.1,
   (c6_mel_window_length_config "" "m.txt" [] [] 7).2.2.1 (by decide) (by decide),
   by decide⟩

/-- Claim C7: with a non-empty manifest path the index is exactly the
rstripped manifest lines in order; otherwise with a non-empty directory it
is the `.mp4`-suffixed listing entries (joined onto the directory) in
listing order; with both empty construction fails; and `__len__` equals
the number of resolved paths. -/
theorem c7_index_construction (dir fl : String)
    (fileslistLines dirListing : List String) (n : ℤ) :
    (fl ≠ "" → resolveVideoPaths dir fl fileslistLines dirListing =
      .ok (fileslistLines.map pyRstrip)) ∧
    (fl = "" → dir ≠ "" → resolveVideoPaths dir fl fileslistLines dirListing =
      .ok ((dirListing.filter (fun f => pyEndsWith f ".mp4")).map
        (fun f => osPathJoin dir f))) ∧
    (fl = "" → dir = "" → resolveVideoPaths dir fl fileslistLines dirListing =
      .error "data_dir and fileslist cannot be both empty") ∧
    (∀ d paths, initDataset dir fl fileslistLines dirListing n = .ok d →
      resolveVideoPaths dir fl fileslistLines dirListing = .ok paths →
      d.video_paths = paths ∧ datasetLen d = paths.length) := by
  refine ⟨?_, ?_, ?_, ?_⟩
  · intro hfl
    rw [resolveVideoPaths, if_pos hfl]
  · intro hfl hdir
    rw [resolveVideoPaths, if_neg (by simp [hfl]), if_pos hdir]
  · intro hfl hdir
    rw [resolveVideoPaths, if_neg (by simp [hfl]), if_neg (by simp [hdir])]
  · intro d paths hd hres
    rw [initDataset, hres] at hd
    cases hmwl : melWindowLengthOf n with
    | error e => rw [hmwl] at hd; cases hd
    | ok mwl =>
      rw [hmwl] at hd
      cases hd
      exact ⟨rfl, rfl⟩

/-- Witness for C7: a two-line manifest, and a directory listing with one
matching and one non-matching entry. -/
theorem c7_witness :
    resolveVideoPaths "" "list.txt" ["a.mp4\n", "b.mp4 \n"] [] =
      .ok ["a.mp4", "b.mp4"] ∧
    resolveVideoPaths "d" "" [] ["x.mp4", "notes.txt"] = .ok ["d/x.mp4"] ∧
    resolveVideoPaths "" "" [] [] = .error "data_dir and fileslist cannot be both empty" ∧
    ∀ d, initDataset "" "list.txt" ["a.mp4\n", "b.mp4 \n"] [] 5 = .ok d →
      resolveVideoPaths "" "list.txt" ["a.mp4\n", "b.mp4 \n"] [] = .ok ["a.mp4", "b.mp4"] →
      d.video_paths = ["a.mp4", "b.mp4"] ∧ datasetLen d = 2 :=
  ⟨by have h := (c7_index_construction "" "list.txt" ["a.mp4\n", "b.mp4 \n"] [] 5).1
        (by decide)
      rw [h]; congr 1,
   by have h := (c7_index_construction "d" "" [] ["x.mp4", "notes.txt"] 5).2.1 rfl
        (by decide)
      rw [h]; congr 1,
   (c7_index_construction "" "" [] [] 5).2.2.1 rfl rfl,
   fun d hd hres =>
     (c7_index_construction "" "list.txt" ["a.mp4\n", "b.mp4 \n"] [] 5).2.2.2 d
       ["a.mp4", "b.mp4"] hd hres⟩

/-! ## Concrete fixtures for the end-to-end and retry claims -/

/-- The empty cache directory. -/
def fsEmpty : FS := fun _ => none

/-- A 1-video dataset: `T = 60` frames, `num_frames = 5`, audio loading
disabled, image processing always succeeding (spec §8's end-to-end
scenario). The processor stand-ins pass frames through (`procFrame`,
`maskedFrame`, `procImage`) or emit a constant mask (`maskFrame`). -/
def stOneVideo : DatasetState where
  video_paths := ["v.mp4"]
  num_frames := 5
  mel_window_length := 16
  video_fps := 25
  load_audio_data := false
  audio_mel_cache_dir := "cache"
  mask := "fix_mask"
  frameCount := fun _ => some 60
  readAudio := fun _ => none
  procOk := fun _ => true
  procFrame := fun x => x
  maskedFrame := fun x => x
  maskFrame := fun _ => 1
  procImage := fun x => x

/-- A 2-video dataset where decoding the first video raises and the second
decodes to 60 frames (spec §8's retry-containment scenario). -/
def stTwoVideos : DatasetState where
  video_paths := ["bad.mp4", "good.mp4"]
  num_frames := 5
  mel_window_length := 16
  video_fps := 25
  load_audio_data := false
  audio_mel_cache_dir := "cache"
  mask := "fix_mask"
  frameCount := fun p => if p = "bad.mp4" then none else some 60
  readAudio := fun _ => none
  procOk := fun _ => true
  procFrame := fun x => x
  maskedFrame := fun x => x
  maskFrame := fun _ => 1
  procImage := fun x => x

/-- Every successful attempt on the 1-video dataset returns a record with
empty mel, 5 processed frames in `gt` and `ref`, and the positive draw as
start index. -/
theorem attemptBody_stOneVideo_ok {fs : FS} {r : AttemptRand} {s : Sample} {fs' : FS}
    (hlo : 2 ≤ r.posDraw) (hhi : r.posDraw ≤ 53)
    (h : attemptBody stOneVideo fs r = .ok s fs') :
    s.mel = .empty ∧ s.gt.length = 5 ∧ s.ref.length = 5 ∧
      2 ≤ s.start_idx ∧ s.start_idx ≤ 53 := by
  cases hpath : stOneVideo.video_paths[r.idxDraw]? with
  | none => rw [attemptBody, hpath] at h; cases h
  | some video_path =>
    rw [attemptBody, hpath] at h
    simp only [stOneVideo] at h
    cases hgf : get_frames 5 60 r.posDraw r.negDraws with
    | none =>
      rw [hgf, if_neg (by decide : ¬((60:ℤ) < 3 * 5))] at h
      cases h
    | some t =>
      obtain ⟨fi, wi, st⟩ := t
      rw [hgf, if_neg (by decide : ¬((60:ℤ) < 3 * 5))] at h
      simp only [processStage] at h
      rw [if_neg (by decide : ¬(false = true)), if_pos trivial, if_pos trivial] at h
      injection h with h1 h2
      subst h1
      obtain ⟨w, _, hfi, hwi, hst⟩ := get_frames_eq_some hgf
      subst hfi hwi hst
      refine ⟨rfl, ?_, ?_, hlo, hhi⟩
      · show ((npArange r.posDraw 5).map (fun x => x)).length = 5
        rw [List.length_map, length_npArange]
        rfl
      · show ((npArange w 5).map (fun x => x)).length = 5
        rw [List.length_map, length_npArange]
        rfl

/-- The retry loop on the 1-video dataset only ever returns records of the
amended C4 shape, for any cache state and any draw stream whose positive
draws obey the `randint` range `[2, 53]`. -/
theorem getitemLoop_stOneVideo (s : Sample) :
    ∀ (draws : List AttemptRand) (fs : FS),
      (∀ r ∈ draws, 2 ≤ r.posDraw ∧ r.posDraw ≤ 53) →
      getitemLoop stOneVideo fs draws = some s →
      s.mel = .empty ∧ s.gt.length = 5 ∧ s.ref.length = 5 ∧
        2 ≤ s.start_idx ∧ s.start_idx ≤ 53 := by
  intro draws
  induction draws with
  | nil => intro fs _ h; cases h
  | cons r rest ih =>
    intro fs hdraws h
    rw [getitemLoop] at h
    have hr := hdraws r (List.mem_cons_self r rest)
    have hrest : ∀ r' ∈ rest, 2 ≤ r'.posDraw ∧ r'.posDraw ≤ 53 :=
      fun r' hr' => hdraws r' (List.mem_cons_of_mem r hr')
    cases hab : attemptBody stOneVideo fs r with
    | ok s' fs' =>
      rw [hab] at h
      cases h
      exact attemptBody_stOneVideo_ok hr.1 hr.2 hab
    | retrySkip fs' => rw [hab] at h; exact ih fs' hrest h
    | retryExn fs' => rw [hab] at h; exact ih fs' hrest h
    | stuck => rw [hab] at h; cases h

/-- Counterexample to C4 as stated: on the 1-video `T = 60`, `N = 5`,
audio-disabled dataset, the draw `start_idx = 53` is a legal
`random.randint(5 // 2, 60 - 5 - 5 // 2)` value (the upper bound is
`60 - 5 - 2 = 53`), and the returned record has `start_idx = 53`, outside
the claimed inclusive range `[2, 52]`. -/
theorem c4_counterexample :
    getitem stOneVideo fsEmpty 0 [⟨0, 53, [0]⟩] =
      some ⟨[53, 54, 55, 56, 57], [53, 54, 55, 56, 57], [0, 1, 2, 3, 4], .empty,
        [1, 1, 1, 1, 1], "v.mp4", 53⟩ ∧
    (5:ℤ) / 2 ≤ 53 ∧ (53:ℤ) ≤ 60 - 5 - 5 / 2 ∧
    ¬((53:ℤ) ≤ 52) := by
  refine ⟨by decide, by decide, by decide, by decide⟩

/-- Claim C4 (amended): on a 1-video dataset with `T = 60` frames,
`num_frames = 5` and audio loading disabled, every record returned by
`__getitem__` has `mel` equal to the empty list, exactly 5 frames in `gt`
and in `ref`, and `start_idx` in the inclusive range `[2, 53]`. -/
theorem c4_one_video_end_to_end (idx : ℕ) (fs : FS) (draws : List AttemptRand)
    (s : Sample)
    (hdraws : ∀ r ∈ draws, 2 ≤ r.posDraw ∧ r.posDraw ≤ 53)
    (h : getitem stOneVideo fs idx draws = some s) :
    s.mel = .empty ∧ s.gt.length = 5 ∧ s.ref.length = 5 ∧
      2 ≤ s.start_idx ∧ s.start_idx ≤ 53 :=
  getitemLoop_stOneVideo s draws fs hdraws h

/-- Witness for the amended C4 on a concrete accepted run. -/
theorem c4_witness :
    (∀ r ∈ [(⟨0, 2, [10]⟩ : AttemptRand)], 2 ≤ r.posDraw ∧ r.posDraw ≤ 53) ∧
    ((⟨[2, 3, 4, 5, 6], [2, 3, 4, 5, 6], [10, 11, 12, 13, 14], .empty,
        [1, 1, 1, 1, 1], "v.mp4", 2⟩ : Sample).mel = .empty ∧
      (⟨[2, 3, 4, 5, 6], [2, 3, 4, 5, 6], [10, 11, 12, 13, 14], .empty,
        [1, 1, 1, 1, 1], "v.mp4", 2⟩ : Sample).gt.length = 5 ∧
      (⟨[2, 3, 4, 5, 6], [2, 3, 4, 5, 6], [10, 11, 12, 13, 14], .empty,
        [1, 1, 1, 1, 1], "v.mp4", 2⟩ : Sample).ref.length = 5 ∧
      2 ≤ (⟨[2, 3, 4, 5, 6], [2, 3, 4, 5, 6], [10, 11, 12, 13, 14], .empty,
        [1, 1, 1, 1, 1], "v.mp4", 2⟩ : Sample).start_idx ∧
      (⟨[2, 3, 4, 5, 6], [2, 3, 4, 5, 6], [10, 11, 12, 13, 14], .empty,
        [1, 1, 1, 1, 1], "v.mp4", 2⟩ : Sample).start_idx ≤ 53) :=
  ⟨by decide,
   c4_one_video_end_to_end 7 fsEmpty [⟨0, 2, [10]⟩] _ (by decide) (by decide)⟩

/-- Counterexample to C3 as stated: on the 2-video dataset whose video 0
fails to decode, the draw stream `[0, 0, 1]` is legal (each index is a
uniform draw from `[0, 1]`), the first attempt at index 0 raises and is
caught, yet the next attempted index is again 0 — not "different from the
failing one" — and the call still returns a complete record. -/
theorem c3_counterexample :
    attemptBody stTwoVideos fsEmpty ⟨0, 10, [0]⟩ = .retryExn fsEmpty ∧
    attemptedIndices stTwoVideos fsEmpty
      [⟨0, 10, [0]⟩, ⟨0, 10, [0]⟩, ⟨1, 10, [0]⟩] = [0, 0, 1] ∧
    (attemptedIndices stTwoVideos fsEmpty
      [⟨0, 10, [0]⟩, ⟨0, 10, [0]⟩, ⟨1, 10, [0]⟩])[1]? = some 0 ∧
    getitem stTwoVideos fsEmpty 0 [⟨0, 10, [0]⟩, ⟨0, 10, [0]⟩, ⟨1, 10, [0]⟩] =
      some ⟨[10, 11, 12, 13, 14], [10, 11, 12, 13, 14], [0, 1, 2, 3, 4], .empty,
        [1, 1, 1, 1, 1], "good.mp4", 10⟩ :=
  ⟨rfl, by decide, by decide, by decide⟩

/-- Claim C3 (amended): any exception in an attempt is caught by the retry
loop — the call's result is exactly the result of continuing with the
remaining draws (so nothing propagates to the caller), a `continue`
behaves the same way, and as soon as an attempt succeeds the loop returns
that attempt's complete record. The fresh index of the next attempt is a
new uniform draw, not guaranteed different from the failing one. -/
theorem c3_retry_containment (st : DatasetState) (fs : FS) (idx : ℕ)
    (r : AttemptRand) (rest : List AttemptRand) :
    (∀ fs', attemptBody st fs r = .retryExn fs' →
      getitem st fs idx (r :: rest) = getitem st fs' idx rest) ∧
    (∀ fs', attemptBody st fs r = .retrySkip fs' →
      getitem st fs idx (r :: rest) = getitem st fs' idx rest) ∧
    (∀ s fs', attemptBody st fs r = .ok s fs' →
      getitem st fs idx (r :: rest) = some s) := by
  refine ⟨fun fs' hab => ?_, fun fs' hab => ?_, fun s fs' hab => ?_⟩ <;>
    rw [getitem, getitemLoop, hab] <;> rfl

/-- Witness for the amended C3: the failing first attempt of the 2-video
dataset is contained, and the succeeding attempt returns its record. -/
theorem c3_witness :
    getitem stTwoVideos fsEmpty 3 [⟨0, 10, [0]⟩, ⟨1, 10, [0]⟩] =
      getitem stTwoVideos fsEmpty 3 [⟨1, 10, [0]⟩] ∧
    getitem stTwoVideos fsEmpty 3 [⟨1, 10, [0]⟩] =
      some ⟨[10, 11, 12, 13, 14], [10, 11, 12, 13, 14], [0, 1, 2, 3, 4], .empty,
        [1, 1, 1, 1, 1], "good.mp4", 10⟩ :=
  ⟨(c3_retry_containment stTwoVideos fsEmpty 3 ⟨0, 10, [0]⟩ [⟨1, 10, [0]⟩]).1
      fsEmpty rfl,
   (c3_retry_containment stTwoVideos fsEmpty 3 ⟨1, 10, [0]⟩ []).2.2 _ fsEmpty rfl⟩

/-- Claim C9: the cache key is the cache directory joined with the
basename with `.mp4` replaced by `_mel.pt`; a cache file that loads
successfully is returned with the filesystem untouched; a file that fails
to load is deleted and the freshly computed spectrogram is persisted at
the key; a missing file leads to compute-and-persist; and in every case
the value used downstream is the successfully loaded or freshly computed
spectrogram. -/
theorem c9_cache_protocol (fs : FS) (key : String) (computed : Option Mel) :
    (∀ dir p, melCachePath dir p =
      osPathJoin dir (pyReplace (pyBasename p) ".mp4" "_mel.pt")) ∧
    (∀ b m, fs key = some b → torchLoad b = some m →
      getOrComputeMel fs key computed = (some m, fs)) ∧
    (∀ b m, fs key = some b → torchLoad b = none → computed = some m →
      (getOrComputeMel fs key computed).1 = some m ∧
      (getOrComputeMel fs key computed).2 key = some (Blob.saved m)) ∧
    (∀ m, fs key = none → computed = some m →
      (getOrComputeMel fs key computed).1 = some m ∧
      (getOrComputeMel fs key computed).2 key = some (Blob.saved m)) ∧
    (∀ v fs', getOrComputeMel fs key computed = (some v, fs') →
      (∃ b, fs key = some b ∧ torchLoad b = some v) ∨ computed = some v) := by
  refine ⟨fun _ _ => rfl, ?_, ?_, ?_, ?_⟩
  · intro b m hb hload
    simp only [getOrComputeMel.eq_def, hb, hload]
  · intro b m hb hload hcomp
    constructor
    · simp only [getOrComputeMel.eq_def, hb, hload, hcomp]
    · simp only [getOrComputeMel.eq_def, hb, hload, hcomp]
      simp [fsUpdate]
  · intro m hb hcomp
    constructor
    · simp only [getOrComputeMel.eq_def, hb, hcomp]
    · simp only [getOrComputeMel.eq_def, hb, hcomp]
      simp [fsUpdate]
  · intro v fs' h
    simp only [getOrComputeMel.eq_def] at h
    cases hb : fs key with
    | some b =>
      simp only [hb] at h
      cases hload : torchLoad b with
      | some m =>
        simp only [hload] at h
        injection h with h1 h2
        injection h1 with h1
        subst h1
        exact Or.inl ⟨b, rfl, hload⟩
      | none =>
        simp only [hload] at h
        cases hcomp : computed with
        | none => simp only [hcomp] at h; injection h with h1 h2; cases h1
        | some m =>
          simp only [hcomp] at h
          injection h with h1 h2
          injection h1 with h1
          subst h1
          exact Or.inr rfl
    | none =>
      simp only [hb] at h
      cases hcomp : computed with
      | none => simp only [hcomp] at h; injection h with h1 h2; cases h1
      | some m =>
        simp only [hcomp] at h
        injection h with h1 h2
        injection h1 with h1
        subst h1
        exact Or.inr rfl

/-- A cache directory holding a well-formed entry for `v.mp4`. -/
def fsWithGood : FS :=
  fun p => if p = "cache/v_mel.pt" then some (.saved [[3]]) else none

/-- A cache directory holding a corrupt entry for `v.mp4`. -/
def fsWithCorrupt : FS :=
  fun p => if p = "cache/v_mel.pt" then some .corrupt else none

/-- Witness for C9: the key formula on a concrete path, a successful load,
a corrupt entry healed by recomputation, and a cold-cache computation. -/
theorem c9_witness :
    melCachePath "cache" "data/v.mp4" = "cache/v_mel.pt" ∧
    getOrComputeMel fsWithGood "cache/v_mel.pt" (some [[9]]) = (some [[3]], fsWithGood) ∧
    ((getOrComputeMel fsWithCorrupt "cache/v_mel.pt" (some [[9]])).1 = some [[9]] ∧
      (getOrComputeMel fsWithCorrupt "cache/v_mel.pt" (some [[9]])).2 "cache/v_mel.pt" =
        some (Blob.saved [[9]])) ∧
    ((getOrComputeMel fsEmpty "cache/v_mel.pt" (some [[9]])).1 = some [[9]] ∧
      (getOrComputeMel fsEmpty "cache/v_mel.pt" (some [[9]])).2 "cache/v_mel.pt" =
        some (Blob.saved [[9]])) :=
  ⟨by decide,
   (c9_cache_protocol fsWithGood "cache/v_mel.pt" (some [[9]])).2.1
     (Blob.saved [[3]]) [[3]] rfl rfl,
   (c9_cache_protocol fsWithCorrupt "cache/v_mel.pt" (some [[9]])).2.2.1
     Blob.corrupt [[9]] rfl rfl rfl,
   (c9_cache_protocol fsEmpty "cache/v_mel.pt" (some [[9]])).2.2.2.1 [[9]] rfl rfl⟩

/-- Claim C8: the requested index has no influence on the result — with
identical random draws and filesystem state, `__getitem__ i` and
`__getitem__ j` return the same record, because line 117 overwrites the
argument with a fresh uniform draw before it is ever read. -/
theorem c8_requested_index_ignored (st : DatasetState) (fs : FS) (i j : ℕ)
    (draws : List AttemptRand) :
    getitem st fs i draws = getitem st fs j draws := rfl

end LatentSync
